import Mathlib

/-!
Verification model of the WLED JSON API client (`lib/wled_api.py`).

The Python source is shallowly embedded as follows.

* JSON documents are the inductive type `Json`; Python dicts are association
  lists in insertion order.
* Python code that can raise is modelled in `Except String`; the error string
  names the Python exception class that would be raised.
* Python is duck-typed and the dataclass constructors store whatever value a
  field holds.  The embedding gives each field its intended type and makes the
  decoder reject (with a `TypeError`) a present field of the wrong shape;
  every claim under verification only exercises well-typed or absent fields,
  where the embedding and the Python code agree exactly.
* Network I/O is made explicit: each request-performing method takes a
  `ReqOutcome` describing what the network did (the HTTP status and body, or
  the exception class raised by the `requests` library), and returns the
  updated client state together with its Python return value.
* The built-in Lean string functions are replaced by small structural
  recursions (`pySplit`, `pyStrip`, `pyLower`, ...) mirroring the Python
  `str` methods on ASCII data, so that concrete runs reduce inside the kernel.
* The thread pool of the HTTP subnet prober is sequentialised: each pass is a
  fold over its candidate list, the probe outcomes being an arbitrary
  function of the address.  The properties verified about it (candidate-set
  shape, exclusion, deduplication) are insensitive to the interleaving
  because the Python code guards its shared lists with locks.
-/

set_option autoImplicit false

/-- JSON values as delivered by `response.json()`.  Numbers are modelled as
integers, which covers every field the client consumes. -/
inductive Json where
  | null
  | bool (b : Bool)
  | num (n : Int)
  | str (s : String)
  | arr (xs : List Json)
  | obj (fields : List (String × Json))
deriving Repr

/-- Python dict lookup (`data.get(k)` / `k in data`) over the association
list of an object, first match wins. -/
def jlookup : List (String × Json) → String → Option Json
  | [], _ => none
  | (k', v) :: rest, k => if k' = k then some v else jlookup rest k

/-- Python truthiness (`bool(x)`) of a JSON value. -/
def truthy : Json → Bool
  | .null => false
  | .bool b => b
  | .num n => decide (n ≠ 0)
  | .str s => decide (s ≠ "")
  | .arr xs => !xs.isEmpty
  | .obj fs => !fs.isEmpty

/-- The `data.get(k, d)` idiom for an integer-valued field.  A present field
that is not a number (a Python `bool` counts as a number) is a type error in
the embedding; see the header. -/
def jgetInt (fs : List (String × Json)) (k : String) (d : Int) : Except String Int :=
  match jlookup fs k with
  | none => .ok d
  | some (.num n) => .ok n
  | some (.bool b) => .ok (if b then 1 else 0)
  | some _ => .error "TypeError"

/-- The `data.get(k, d)` idiom for a boolean-valued field. -/
def jgetBool (fs : List (String × Json)) (k : String) (d : Bool) : Except String Bool :=
  match jlookup fs k with
  | none => .ok d
  | some (.bool b) => .ok b
  | some _ => .error "TypeError"

/-- The `data.get(k, d)` idiom for a string-valued field. -/
def jgetStr (fs : List (String × Json)) (k : String) (d : String) : Except String String :=
  match jlookup fs k with
  | none => .ok d
  | some (.str s) => .ok s
  | some _ => .error "TypeError"

/-- The `data.get(k, {})` idiom for a nested object (`nl`, `udpn`, `leds`). -/
def jgetObj (fs : List (String × Json)) (k : String) : Except String (List (String × Json)) :=
  match jlookup fs k with
  | none => .ok []
  | some (.obj inner) => .ok inner
  | some _ => .error "TypeError"

/-- Python list indexing `xs[i]`, including negative indices counted from the
end; out of range raises `IndexError`. -/
def pyIndex {α : Type} (xs : List α) (i : Int) : Except String α :=
  if (if i < 0 then i + xs.length else i) < 0 then .error "IndexError"
  else
    match xs.get? (if i < 0 then i + xs.length else i).toNat with
    | some x => .ok x
    | none => .error "IndexError"

/-- Python `str.split(sep)` for a one-character separator, on the character
list of the string. -/
def splitChar (sep : Char) : List Char → List (List Char)
  | [] => [[]]
  | c :: rest =>
    let r := splitChar sep rest
    if c == sep then [] :: r
    else
      match r with
      | h :: t => (c :: h) :: t
      | [] => [[c]]

/-- Python `str.split(sep)` for a one-character separator. -/
def pySplit (s : String) (sep : Char) : List String :=
  (splitChar sep s.toList).map String.mk

/-- Python `str.strip()` (ASCII whitespace). -/
def pyStrip (s : String) : String :=
  String.mk (((s.toList.dropWhile Char.isWhitespace).reverse.dropWhile
    Char.isWhitespace).reverse)

/-- ASCII lowercasing of one character, as `str.lower()` does on the data the
device sends. -/
def pyLowerChar (c : Char) : Char :=
  if 65 ≤ c.toNat && c.toNat ≤ 90 then Char.ofNat (c.toNat + 32) else c

/-- Python `str.lower()` on ASCII data. -/
def pyLower (s : String) : String :=
  String.mk (s.toList.map pyLowerChar)

/-- Python `c in s` membership of a character in a string. -/
def pyContains (s : String) (c : Char) : Bool :=
  s.toList.any (fun x => x == c)

/-- Value of a decimal digit run, accumulator style; `none` when a non-digit
appears. -/
def digitsVal : List Char → Nat → Option Nat
  | [], acc => some acc
  | c :: cs, acc =>
    if 48 ≤ c.toNat && c.toNat ≤ 57 then digitsVal cs (acc * 10 + (c.toNat - 48)) else none

/-- Python `int(key)` on a decimal string: surrounding whitespace is ignored,
one optional sign, then at least one digit; anything else is a `ValueError`,
reported as `none`. -/
def pyInt (s : String) : Option Int :=
  match (pyStrip s).toList with
  | [] => none
  | '-' :: cs => if cs = [] then none else (digitsVal cs 0).map (fun n => -(n : Int))
  | '+' :: cs => if cs = [] then none else (digitsVal cs 0).map (fun n => (n : Int))
  | cs => (digitsVal cs 0).map (fun n => (n : Int))

/-- One WLED segment, fields and defaults as in the `WLEDSegment` dataclass.
The Python field `on` is called `on_` because `on` is reserved in Lean. -/
structure WLEDSegment where
  id : Int
  start : Int
  stop : Int
  length : Int
  on_ : Bool := true
  brightness : Int := 255
  effect : Int := 0
  speed : Int := 128
  intensity : Int := 128
  palette : Int := 0
  colors : List (List Int) := [[255, 255, 255]]
deriving Repr, DecidableEq

/-- Decoder for one entry of a `col` list: a color is a list of channel
values. -/
def decodeIntList : List Json → Except String (List Int)
  | [] => .ok []
  | .num n :: rest => do
    let r ← decodeIntList rest
    Except.ok (n :: r)
  | _ => .error "TypeError"

/-- Decoder for a `col` list of colors. -/
def decodeColors : List Json → Except String (List (List Int))
  | [] => .ok []
  | .arr ns :: rest => do
    let c ← decodeIntList ns
    let r ← decodeColors rest
    Except.ok (c :: r)
  | _ => .error "TypeError"

/-- The `data.get('col', [[255, 255, 255]])` idiom. -/
def jgetColors (fs : List (String × Json)) : Except String (List (List Int)) :=
  match jlookup fs "col" with
  | none => .ok [[255, 255, 255]]
  | some (.arr xs) => decodeColors xs
  | some _ => .error "TypeError"

/-- `WLEDSegment.from_json`: note that, as in the source, the default for
`len` is `stop - start` computed from the other two decoded fields. -/
def WLEDSegment.from_json (j : Json) (seg_id : Int) : Except String WLEDSegment :=
  match j with
  | .obj data => do
    let startv ← jgetInt data "start" 0
    let stopv ← jgetInt data "stop" 0
    let lengthv ← jgetInt data "len" (stopv - startv)
    let onv ← jgetBool data "on" true
    let briv ← jgetInt data "bri" 255
    let fxv ← jgetInt data "fx" 0
    let sxv ← jgetInt data "sx" 128
    let ixv ← jgetInt data "ix" 128
    let palv ← jgetInt data "pal" 0
    let colv ← jgetColors data
    Except.ok { id := seg_id, start := startv, stop := stopv, length := lengthv,
                on_ := onv, brightness := briv, effect := fxv, speed := sxv,
                intensity := ixv, palette := palv, colors := colv }
  | _ => .error "AttributeError"

/-- Device state, fields and defaults as in the `WLEDState` dataclass. -/
structure WLEDState where
  on_ : Bool := false
  brightness : Int := 0
  transition : Int := 7
  preset : Int := -1
  playlist : Int := -1
  nightlight_on : Bool := false
  nightlight_duration : Int := 60
  nightlight_mode : Int := 0
  nightlight_brightness : Int := 0
  live : Bool := false
  sync_send : Bool := false
  sync_receive : Bool := true
  main_segment : Int := 0
  segments : List WLEDSegment := []
deriving Repr, DecidableEq

/-- Decoder for the `seg` list, enumerating segment ids from 0 as
`enumerate` does. -/
def decodeSegs : List Json → Int → Except String (List WLEDSegment)
  | [], _ => .ok []
  | x :: xs, i => do
    let s ← WLEDSegment.from_json x i
    let rest ← decodeSegs xs (i + 1)
    Except.ok (s :: rest)

/-- `WLEDState.from_json`. -/
def WLEDState.from_json (j : Json) : Except String WLEDState :=
  match j with
  | .obj data => do
    let segj ← (match jlookup data "seg" with
      | none => Except.ok []
      | some (.arr xs) => Except.ok xs
      | some _ => Except.error "TypeError")
    let segments ← decodeSegs segj 0
    let nl ← jgetObj data "nl"
    let udpn ← jgetObj data "udpn"
    let onv ← jgetBool data "on" false
    let briv ← jgetInt data "bri" 0
    let transitionv ← jgetInt data "transition" 7
    let psv ← jgetInt data "ps" (-1)
    let plv ← jgetInt data "pl" (-1)
    let nlOn ← jgetBool nl "on" false
    let nlDur ← jgetInt nl "dur" 60
    let nlMode ← jgetInt nl "mode" 0
    let nlTbri ← jgetInt nl "tbri" 0
    let lorv ← jgetInt data "lor" 0
    let sendv ← jgetBool udpn "send" false
    let recvv ← jgetBool udpn "recv" true
    let mainsegv ← jgetInt data "mainseg" 0
    Except.ok { on_ := onv, brightness := briv, transition := transitionv,
                preset := psv, playlist := plv, nightlight_on := nlOn,
                nightlight_duration := nlDur, nightlight_mode := nlMode,
                nightlight_brightness := nlTbri, live := decide (0 < lorv),
                sync_send := sendv, sync_receive := recvv,
                main_segment := mainsegv, segments := segments }
  | _ => .error "AttributeError"

/-- `WLEDState.primary_color`: the first color of the main segment, white if
there is none.  Note the guard `len(self.segments) > self.main_segment` does
not rule out a negative main-segment index, on which Python indexing counts
from the end of the list or raises. -/
def WLEDState.primary_color (s : WLEDState) : Except String (List Int) :=
  if s.segments.length ≠ 0 ∧ s.main_segment < (s.segments.length : Int) then
    match pyIndex s.segments s.main_segment with
    | .ok seg =>
      match seg.colors with
      | c :: _ => .ok c
      | [] => .ok [255, 255, 255]
    | .error e => .error e
  else .ok [255, 255, 255]

/-- `WLEDState.effect`: effect id of the main segment, 0 as fallback. -/
def WLEDState.effect (s : WLEDState) : Except String Int :=
  if s.segments.length ≠ 0 ∧ s.main_segment < (s.segments.length : Int) then
    match pyIndex s.segments s.main_segment with
    | .ok seg => .ok seg.effect
    | .error e => .error e
  else .ok 0

/-- `WLEDState.palette`: palette id of the main segment, 0 as fallback. -/
def WLEDState.palette (s : WLEDState) : Except String Int :=
  if s.segments.length ≠ 0 ∧ s.main_segment < (s.segments.length : Int) then
    match pyIndex s.segments s.main_segment with
    | .ok seg => .ok seg.palette
    | .error e => .error e
  else .ok 0

/-- Device info, fields and defaults as in the `WLEDInfo` dataclass. -/
structure WLEDInfo where
  version : String := ""
  version_id : Int := 0
  led_count : Int := 0
  max_segments : Int := 0
  name : String := ""
  udp_port : Int := 21324
  live_support : Bool := false
  live_mode : Int := 0
  product : String := "WLED"
  brand : String := "wled"
  mac : String := ""
  ip : String := ""
deriving Repr, DecidableEq

/-- `WLEDInfo.from_json`.  The `lm` field keeps a boolean as is and otherwise
takes the truthiness of the present value (absent means `bool(0)`); the `lip`
field is kept only when it is an integer (Python booleans being integers). -/
def WLEDInfo.from_json (j : Json) : Except String WLEDInfo :=
  match j with
  | .obj data => do
    let leds ← jgetObj data "leds"
    let versionv ← jgetStr data "ver" ""
    let vidv ← jgetInt data "vid" 0
    let countv ← jgetInt leds "count" 0
    let maxsegv ← jgetInt leds "maxseg" 0
    let namev ← jgetStr data "name" ""
    let udpportv ← jgetInt data "udpport" 21324
    let lmv := (match jlookup data "lm" with
      | some (.bool b) => b
      | none => false
      | some v => truthy v)
    let lipv := (match jlookup data "lip" with
      | some (.num n) => n
      | some (.bool b) => if b then 1 else 0
      | _ => 0)
    let productv ← jgetStr data "product" "WLED"
    let brandv ← jgetStr data "brand" "wled"
    let macv ← jgetStr data "mac" ""
    let ipv ← jgetStr data "ip" ""
    Except.ok { version := versionv, version_id := vidv, led_count := countv,
                max_segments := maxsegv, name := namev, udp_port := udpportv,
                live_support := lmv, live_mode := lipv, product := productv,
                brand := brandv, mac := macv, ip := ipv }
  | _ => .error "AttributeError"

/-- The mutable fields of a `WLEDDevice` client: the cached entities and the
connectivity pair, with the constructor defaults. -/
structure ClientState where
  online : Bool := false
  last_error : Option String := none
  state : Option WLEDState := none
  info : Option WLEDInfo := none
  effects : List String := []
  palettes : List String := []
  presets : List (Int × Json) := []
deriving Repr

/-- What the network did for one request: an HTTP response (whose body is
`none` when `response.json()` raises), or the exception class raised by the
`requests` call. -/
inductive ReqOutcome where
  | httpResp (status : Nat) (body : Option Json)
  | timeout
  | connError
  | reqError (msg : String)
  | otherError (msg : String)
deriving Repr

/-- `WLEDDevice._request`: the connectivity bookkeeping of one request
attempt.  On a 200 the flags are set before `response.json()` is called, so a
malformed body still ends offline with the decode error recorded; on any
other status only `_last_error` is written. -/
def WLEDDevice.request (c : ClientState) (o : ReqOutcome) : ClientState × Option Json :=
  match o with
  | .httpResp status body =>
    if status = 200 then
      match body with
      | some j => ({ c with online := true, last_error := none }, some j)
      | none => ({ c with online := false, last_error := some "JSONDecodeError" }, none)
    else ({ c with last_error := some ("HTTP " ++ toString status) }, none)
  | .timeout => ({ c with online := false, last_error := some "Timeout" }, none)
  | .connError => ({ c with online := false, last_error := some "Connection error" }, none)
  | .reqError m => ({ c with online := false, last_error := some m }, none)
  | .otherError m => ({ c with online := false, last_error := some m }, none)

/-- The `[e for e in data['effects'] if e and e != '-']` filter. -/
def filterNames (es : List String) : List String :=
  es.filter (fun e => decide (e ≠ "" ∧ e ≠ "-"))

/-- Decoder for the `effects` / `palettes` name lists. -/
def asStringList (j : Json) : Except String (List String) :=
  match j with
  | .arr xs =>
    let rec go : List Json → Except String (List String)
      | [] => .ok []
      | .str s :: rest => do
        let r ← go rest
        Except.ok (s :: r)
      | _ => .error "TypeError"
    go xs
  | _ => .error "TypeError"

/-- `WLEDDevice.get_all`.  A falsy body (`if data:`) is a failed call; a
truthy object body replaces exactly the entities present among its keys.  A
truthy body of another JSON shape carries none of the four keys, so nothing
is replaced (`'state' in data` is false). -/
def WLEDDevice.get_all (c : ClientState) (o : ReqOutcome) : Except String (ClientState × Bool) :=
  match WLEDDevice.request c o with
  | (c1, none) => .ok (c1, false)
  | (c1, some d) =>
    if truthy d then
      match d with
      | .obj fs => do
        let c2 ← (match jlookup fs "state" with
          | some sj => do
            let st ← WLEDState.from_json sj
            Except.ok { c1 with state := some st }
          | none => Except.ok c1)
        let c3 ← (match jlookup fs "info" with
          | some ij => do
            let inf ← WLEDInfo.from_json ij
            Except.ok { c2 with info := some inf }
          | none => Except.ok c2)
        let c4 ← (match jlookup fs "effects" with
          | some ej => do
            let es ← asStringList ej
            Except.ok { c3 with effects := filterNames es }
          | none => Except.ok c3)
        let c5 ← (match jlookup fs "palettes" with
          | some pj => do
            let ps ← asStringList pj
            Except.ok { c4 with palettes := filterNames ps }
          | none => Except.ok c4)
        Except.ok (c5, true)
      | _ => .ok (c1, true)
    else .ok (c1, false)

/-- `WLEDDevice.get_state`: on a truthy body the cached state is replaced by
the decoded body and returned; otherwise `None`. -/
def WLEDDevice.get_state (c : ClientState) (o : ReqOutcome) :
    Except String (ClientState × Option WLEDState) :=
  match WLEDDevice.request c o with
  | (c1, none) => .ok (c1, none)
  | (c1, some d) =>
    if truthy d then do
      let st ← WLEDState.from_json d
      Except.ok ({ c1 with state := some st }, some st)
    else .ok (c1, none)

/-- `WLEDDevice.get_info`. -/
def WLEDDevice.get_info (c : ClientState) (o : ReqOutcome) :
    Except String (ClientState × Option WLEDInfo) :=
  match WLEDDevice.request c o with
  | (c1, none) => .ok (c1, none)
  | (c1, some d) =>
    if truthy d then do
      let inf ← WLEDInfo.from_json d
      Except.ok ({ c1 with info := some inf }, some inf)
    else .ok (c1, none)

/-- `WLEDDevice.set_state`: POSTs `payload` and, on a truthy response body,
replaces the cached state from the response (the device is authoritative);
the payload itself is never written to the cache. -/
def WLEDDevice.set_state (c : ClientState) (payload : Json) (o : ReqOutcome) :
    Except String (ClientState × Bool) :=
  match WLEDDevice.request c o with
  | (c1, none) => .ok (c1, false)
  | (c1, some d) =>
    if truthy d then do
      let st ← WLEDState.from_json d
      Except.ok ({ c1 with state := some st }, true)
    else .ok (c1, false)

/-- The `max(0, min(255, x))` clamp of the convenience setters. -/
def clamp255 (x : Int) : Int := max 0 (min 255 x)

/-- The payload `set_brightness` passes to `set_state` (as `bri=...`). -/
def WLEDDevice.set_brightness_payload (brightness : Int) : Json :=
  .obj [("bri", .num (clamp255 brightness))]

/-- `WLEDDevice.set_brightness` routes through `set_state`. -/
def WLEDDevice.set_brightness (c : ClientState) (brightness : Int) (o : ReqOutcome) :
    Except String (ClientState × Bool) :=
  WLEDDevice.set_state c (WLEDDevice.set_brightness_payload brightness) o

/-- The payload `set_color` passes to `set_state`
(`seg=[{"col": [[r, g, b, w]]}]` with every channel clamped). -/
def WLEDDevice.set_color_payload (r g b w : Int) : Json :=
  .obj [("seg", .arr [.obj [("col", .arr [.arr [.num (clamp255 r), .num (clamp255 g),
    .num (clamp255 b), .num (clamp255 w)]])]])]

/-- `WLEDDevice.set_color` routes through `set_state`. -/
def WLEDDevice.set_color (c : ClientState) (r g b w : Int) (o : ReqOutcome) :
    Except String (ClientState × Bool) :=
  WLEDDevice.set_state c (WLEDDevice.set_color_payload r g b w) o

/-- Extractor reading the `bri` field a payload encodes (test helper). -/
def briOf (j : Json) : Option Int :=
  match j with
  | .obj fs =>
    match jlookup fs "bri" with
    | some (.num n) => some n
    | _ => none
  | _ => none

/-- Extractor reading the single color a `set_color` payload encodes (test
helper). -/
def colorOf (j : Json) : Option (List Int) :=
  match j with
  | .obj fs =>
    match jlookup fs "seg" with
    | some (.arr [.obj sfs]) =>
      (match jlookup sfs "col" with
       | some (.arr [.arr cs]) =>
         (match decodeIntList cs with
          | .ok l => some l
          | .error _ => none)
       | _ => none)
    | _ => none
  | _ => none

/-- Is a presets-map value an object containing a name
(`isinstance(value, dict) and 'n' in value`)? -/
def hasNameEntry (v : Json) : Bool :=
  match v with
  | .obj fs => (jlookup fs "n").isSome
  | _ => false

/-- Python dict assignment `presets[preset_id] = ...` on an association list:
overwrite in place if the key exists, else append. -/
def presetsInsert (m : List (Int × Json)) (k : Int) (v : Json) : List (Int × Json) :=
  if m.any (fun p => decide (p.1 = k)) then
    m.map (fun p => if p.1 = k then (k, v) else p)
  else m ++ [(k, v)]

/-- The accumulation loop of `get_presets` over `data.items()`: keep the
entries whose value is an object with a name and whose key parses as an
integer; `int(key)` failures are skipped. -/
def buildPresets : List (String × Json) → List (Int × Json) → List (Int × Json)
  | [], acc => acc
  | (key, value) :: rest, acc =>
    match value with
    | .obj fs =>
      match jlookup fs "n" with
      | some n =>
        (match pyInt key with
         | some idv => buildPresets rest (presetsInsert acc idv n)
         | none => buildPresets rest acc)
      | none => buildPresets rest acc
    | _ => buildPresets rest acc

/-- `WLEDDevice.get_presets`: only a 200 response whose body is a JSON object
builds and caches a preset map; every other outcome (non-200 status, network
exception, unparseable or non-object body) is swallowed and yields the empty
map with the cache untouched. -/
def WLEDDevice.get_presets (c : ClientState) (o : ReqOutcome) :
    ClientState × List (Int × Json) :=
  match o with
  | .httpResp 200 (some (.obj fs)) =>
    let ps := buildPresets fs []
    ({ c with presets := ps }, ps)
  | _ => (c, [])

/-- Decoded effect metadata, as built per effect by `get_effect_metadata`. -/
structure EffectMeta where
  name : String
  is_2d : Bool := false
  uses_palette : Bool := false
  volume : Bool := false
  frequency : Bool := false
deriving Repr, DecidableEq

/-- The per-effect parse of one `fxdata` string inside
`get_effect_metadata`: split on every semicolon; the third section (stripped)
decides palette usage unless it is empty or the `!` marker; the fourth
section, up to its first comma, carries the 2d / volume / frequency flag
letters. -/
def parse_fxdata (name : String) (data : String) : EffectMeta :=
  let meta : EffectMeta := { name := name }
  if data = "" then meta
  else
    let parts := pySplit data ';'
    let meta1 :=
      if 3 ≤ parts.length then
        let palette_part := pyStrip (parts.getD 2 "")
        { meta with uses_palette := decide (palette_part ≠ "" ∧ palette_part ≠ "!") }
      else meta
    if 4 ≤ parts.length then
      let flags := pyStrip (parts.getD 3 "")
      if flags = "" then meta1
      else
        let flag_part := if pyContains flags ',' then (pySplit flags ',').getD 0 "" else flags
        { meta1 with is_2d := pyContains flag_part '2',
                     volume := pyContains (pyLower flag_part) 'v',
                     frequency := pyContains (pyLower flag_part) 'f' }
    else meta1

/-- The enumeration loop of `get_effect_metadata` over the zipped effect
names and fxdata strings, skipping empty and placeholder names. -/
def metaLoop : List (String × String) → Int → List (Int × EffectMeta)
  | [], _ => []
  | (name, data) :: rest, i =>
    if name = "" ∨ name = "-" then metaLoop rest (i + 1)
    else (i, parse_fxdata name data) :: metaLoop rest (i + 1)

/-- `WLEDDevice.get_effect_metadata`, given the two decoded lists of the
`/json/effects` and `/json/fxdata` endpoints. -/
def WLEDDevice.get_effect_metadata (effects fxdata : List String) : List (Int × EffectMeta) :=
  metaLoop (effects.zip fxdata) 0

/-- One discovered device record as assembled by `_probe_ip` (the `name` and
`mac` values are stored as received). -/
structure DiscDevice where
  ip : String
  port : Int
  name : Json
  mac : Json
deriving Repr

/-- `WLEDDiscovery._probe_ip`: a positive identification needs a 200 response
whose object body has both a `ver` and a `name` key; every other status,
body shape or network exception yields `none` silently. -/
def WLEDDiscovery.probe_ip (ip : String) (o : ReqOutcome) : Option DiscDevice :=
  match o with
  | .httpResp 200 (some (.obj fs)) =>
    if (jlookup fs "ver").isSome && (jlookup fs "name").isSome then
      some { ip := ip, port := 80,
             name := (jlookup fs "name").getD (.str ip),
             mac := (jlookup fs "mac").getD (.str "") }
    else none
  | _ => none

/-- The candidate list of `_discover_http`: the 254 host addresses of the
/24 subnet, minus the exclusion set. -/
def WLEDDiscovery.ips_to_probe (subnet : String) (exclude_ips : List String) : List String :=
  ((List.range' 1 254).map (fun i => subnet ++ "." ++ toString i)).filter
    (fun ip => decide (ip ∉ exclude_ips))

/-- One probing pass of `_discover_http` (`probe_and_collect` over a worker
pool, sequentialised): a found device is appended unless its address is
already present; on the first pass a miss is recorded for retry.  Returns the
collected devices and the missed addresses. -/
def WLEDDiscovery.run_pass (env : String → ReqOutcome) (is_retry : Bool) :
    List String → List DiscDevice → List String → List DiscDevice × List String
  | [], devices, failed => (devices, failed)
  | ip :: rest, devices, failed =>
    match WLEDDiscovery.probe_ip ip (env ip) with
    | some d =>
      WLEDDiscovery.run_pass env is_retry rest
        (if devices.any (fun x => decide (x.ip = ip)) then devices else devices ++ [d]) failed
    | none =>
      WLEDDiscovery.run_pass env is_retry rest devices
        (if is_retry then failed else failed ++ [ip])

/-- `WLEDDiscovery._discover_http`: a first pass over the candidate list,
then, when the remaining time budget allows it (`do_retry`) and some
addresses missed, a retry pass over exactly those addresses.  The second
component collects every address that was probed. -/
def WLEDDiscovery.discover_http (subnet : String) (exclude_ips : List String)
    (env1 env2 : String → ReqOutcome) (do_retry : Bool) : List DiscDevice × List String :=
  let ips := WLEDDiscovery.ips_to_probe subnet exclude_ips
  let first := WLEDDiscovery.run_pass env1 false ips [] []
  if do_retry ∧ first.2 ≠ [] then
    ((WLEDDiscovery.run_pass env2 true first.2 first.1 []).1, ips ++ first.2)
  else (first.1, ips)

/-- Inversion of a successful monadic bind in the `Except` decoder. -/
theorem exceptBind_ok {α β : Type} {a : Except String α} {f : α → Except String β} {b : β}
    (h : (a >>= f) = .ok b) : ∃ x, a = .ok x ∧ f x = .ok b := by
  cases a with
  | error e => simp [Bind.bind, Except.bind] at h
  | ok x => exact ⟨x, rfl, by simpa [Bind.bind, Except.bind] using h⟩

/-- C6: decoding the state document `{"on": true}` yields power on and every
other field at its declared default, in particular brightness 0, preset -1,
playlist -1 and no segments, and its primary color accessor falls back to
white; the fully empty document likewise decodes to the all-defaults state
rather than raising. -/
theorem minimal_state_document_decode :
    (∃ s : WLEDState, WLEDState.from_json (.obj [("on", .bool true)]) = .ok s ∧
      s.on_ = true ∧ s.brightness = 0 ∧ s.preset = -1 ∧ s.playlist = -1 ∧
      s.segments = [] ∧ s.primary_color = .ok [255, 255, 255])
  ∧ WLEDState.from_json (.obj []) =
      .ok { on_ := false, brightness := 0, transition := 7, preset := -1, playlist := -1,
            nightlight_on := false, nightlight_duration := 60, nightlight_mode := 0,
            nightlight_brightness := 0, live := false, sync_send := false,
            sync_receive := true, main_segment := 0, segments := [] } :=
  ⟨⟨{ on_ := true }, rfl, rfl, rfl, rfl, rfl, rfl, rfl⟩, rfl⟩

/-- C7: a segment document without a `len` key decodes to a segment whose
length is its decoded stop minus its decoded start (each of which is 0 when
absent). -/
theorem segment_length_defaults_to_stop_minus_start
    (d : List (String × Json)) (i : Int) (s : WLEDSegment)
    (hlen : jlookup d "len" = none)
    (h : WLEDSegment.from_json (.obj d) i = .ok s) :
    s.length = s.stop - s.start := by
  simp only [WLEDSegment.from_json] at h
  obtain ⟨sv, hs, h⟩ := exceptBind_ok h
  obtain ⟨tv, ht, h⟩ := exceptBind_ok h
  obtain ⟨lv, hl, h⟩ := exceptBind_ok h
  obtain ⟨ov, ho, h⟩ := exceptBind_ok h
  obtain ⟨bv, hb, h⟩ := exceptBind_ok h
  obtain ⟨fv, hf, h⟩ := exceptBind_ok h
  obtain ⟨xv, hx, h⟩ := exceptBind_ok h
  obtain ⟨iv, hi, h⟩ := exceptBind_ok h
  obtain ⟨pv, hp, h⟩ := exceptBind_ok h
  obtain ⟨cv, hc, h⟩ := exceptBind_ok h
  rw [jgetInt, hlen] at hl
  injection hl with hl
  injection h with h
  subst h
  simp [hl]

/-- C7 witness: `start=0, stop=10` with no `len` decodes to length 10. -/
theorem segment_length_defaults_witness :
    ({ id := 0, start := 0, stop := 10, length := 10 } : WLEDSegment).length =
      ({ id := 0, start := 0, stop := 10, length := 10 } : WLEDSegment).stop -
      ({ id := 0, start := 0, stop := 10, length := 10 } : WLEDSegment).start
  ∧ ({ id := 0, start := 0, stop := 10, length := 10 } : WLEDSegment).length = 10 :=
  ⟨segment_length_defaults_to_stop_minus_start
      [("start", .num 0), ("stop", .num 10)] 0 _ rfl rfl, rfl⟩

/-- C5: a 200 response whose body is falsy JSON (`{}`, `[]`, `""`, `0`,
`false`, `null`) fails the `if data:` guard, so `get_state` returns `None`,
`get_all` and `set_state` return `False`, and no cached entity is replaced
(only the connectivity pair is touched, marking the attempt successful) even
though the empty object itself decodes to a fully defaulted state. -/
theorem falsy_body_treated_as_failure (c : ClientState) (j : Json)
    (h : truthy j = false) :
    WLEDDevice.get_state c (.httpResp 200 (some j)) =
      .ok ({ c with online := true, last_error := none }, none)
  ∧ WLEDDevice.get_all c (.httpResp 200 (some j)) =
      .ok ({ c with online := true, last_error := none }, false)
  ∧ (∀ p, WLEDDevice.set_state c p (.httpResp 200 (some j)) =
      .ok ({ c with online := true, last_error := none }, false))
  ∧ WLEDState.from_json (.obj []) = .ok {} := by
  refine ⟨?_, ?_, fun p => ?_, rfl⟩ <;>
    simp [WLEDDevice.get_state, WLEDDevice.get_all, WLEDDevice.set_state,
      WLEDDevice.request, h]

/-- C5 witness: a 200 response with body `{}` on a client holding a cached
state returns `None` from `get_state` and leaves the cached state intact. -/
theorem falsy_body_treated_as_failure_witness :
    truthy (.obj []) = false
  ∧ WLEDDevice.get_state { state := some { on_ := true } } (.httpResp 200 (some (.obj []))) =
      .ok ({ state := some { on_ := true }, online := true, last_error := none }, none) :=
  ⟨rfl, (falsy_body_treated_as_failure { state := some { on_ := true } } (.obj []) rfl).1⟩

/-- C2: whenever `_request` reports failure (returns `None`), every fetch or
set operation leaves all four cached entities exactly as they were and
reports failure itself: the result state is the request bookkeeping state,
whose cache fields equal the caller's. -/
theorem failed_request_preserves_cache (c : ClientState) (o : ReqOutcome) (p : Json)
    (h : (WLEDDevice.request c o).2 = none) :
    ((WLEDDevice.request c o).1.state = c.state ∧
     (WLEDDevice.request c o).1.info = c.info ∧
     (WLEDDevice.request c o).1.effects = c.effects ∧
     (WLEDDevice.request c o).1.palettes = c.palettes)
  ∧ WLEDDevice.get_all c o = .ok ((WLEDDevice.request c o).1, false)
  ∧ WLEDDevice.get_state c o = .ok ((WLEDDevice.request c o).1, none)
  ∧ WLEDDevice.get_info c o = .ok ((WLEDDevice.request c o).1, none)
  ∧ WLEDDevice.set_state c p o = .ok ((WLEDDevice.request c o).1, false) := by
  rcases o with ⟨status, body⟩ | _ | _ | m | m
  · by_cases hs : status = 200
    · subst hs
      rcases body with _ | j
      · simp [WLEDDevice.request, WLEDDevice.get_all, WLEDDevice.get_state,
          WLEDDevice.get_info, WLEDDevice.set_state]
      · simp [WLEDDevice.request] at h
    · simp [WLEDDevice.request, WLEDDevice.get_all, WLEDDevice.get_state,
        WLEDDevice.get_info, WLEDDevice.set_state, hs]
  all_goals
    simp [WLEDDevice.request, WLEDDevice.get_all, WLEDDevice.get_state,
      WLEDDevice.get_info, WLEDDevice.set_state]

/-- Client state with populated caches, used as concrete witness input. -/
def cachedClient : ClientState :=
  { online := true, state := some { on_ := true }, effects := ["Solid"] }

/-- C2 witness: after a timeout on a client with populated caches, all the
cached entities are unchanged and `get_state` returns `None`. -/
theorem failed_request_preserves_cache_witness :
    (WLEDDevice.request cachedClient .timeout).2 = none
  ∧ (WLEDDevice.request cachedClient .timeout).1.state = some { on_ := true }
  ∧ WLEDDevice.get_state cachedClient .timeout =
      .ok ((WLEDDevice.request cachedClient .timeout).1, none) := by
  have h := failed_request_preserves_cache cachedClient .timeout (.obj []) rfl
  exact ⟨rfl, h.1.1, h.2.2.1⟩

/-- C1 counterexample: a non-200 status on a previously-online client is a
failed attempt (the operation returns `None`), yet afterwards the online
flag is still `true` — only the last-error field records the status.  The
claim that every failed attempt flips the online flag to `false` is
therefore false on the code. -/
theorem request_non200_keeps_online_cex :
    WLEDDevice.get_state { online := true } (.httpResp 500 (some (.obj []))) =
      .ok ({ online := true, last_error := some "HTTP 500" }, none)
  ∧ ({ online := true, last_error := some "HTTP 500" } : ClientState).online ≠ false :=
  ⟨rfl, by simp⟩

/-- C1 amended: for requests routed through `_request` (those of `get_all`,
`get_state`, `get_info`, `set_state`): a 200 response with a parseable body
sets online and clears the error; a 200 response whose body fails to parse
sets offline with the decode error recorded; a timeout, connection error or
other request exception sets offline with the classified cause recorded; a
non-200 status records `HTTP <code>` as the error but leaves the online flag
unchanged.  (`get_presets` and `get_effect_metadata` issue their own
requests and never touch the connectivity pair.) -/
theorem request_attempt_classification (c : ClientState) (o : ReqOutcome) :
    (∀ j, o = .httpResp 200 (some j) →
      (WLEDDevice.request c o).1.online = true ∧
      (WLEDDevice.request c o).1.last_error = none ∧
      (WLEDDevice.request c o).2 = some j)
  ∧ (∀ status body, o = .httpResp status body → status ≠ 200 →
      (WLEDDevice.request c o).1.online = c.online ∧
      (WLEDDevice.request c o).1.last_error = some ("HTTP " ++ toString status) ∧
      (WLEDDevice.request c o).2 = none)
  ∧ (o = .httpResp 200 none →
      (WLEDDevice.request c o).1.online = false ∧
      (WLEDDevice.request c o).1.last_error = some "JSONDecodeError")
  ∧ (o = .timeout →
      (WLEDDevice.request c o).1.online = false ∧
      (WLEDDevice.request c o).1.last_error = some "Timeout")
  ∧ (o = .connError →
      (WLEDDevice.request c o).1.online = false ∧
      (WLEDDevice.request c o).1.last_error = some "Connection error")
  ∧ (∀ m, (o = .reqError m ∨ o = .otherError m) →
      (WLEDDevice.request c o).1.online = false ∧
      (WLEDDevice.request c o).1.last_error = some m) := by
  refine ⟨?_, ?_, ?_, ?_, ?_, ?_⟩
  · rintro j rfl
    exact ⟨rfl, rfl, rfl⟩
  · rintro status body rfl hne
    simp [WLEDDevice.request, hne]
  · rintro rfl
    exact ⟨rfl, rfl⟩
  · rintro rfl
    exact ⟨rfl, rfl⟩
  · rintro rfl
    exact ⟨rfl, rfl⟩
  · rintro m (rfl | rfl) <;> exact ⟨rfl, rfl⟩

/-- C1 witness: a timeout on an online client flips it offline with the
timeout recorded, and a successful attempt flips it back online with the
error cleared. -/
theorem request_attempt_classification_witness :
    ((WLEDDevice.request { online := true } .timeout).1.online = false ∧
     (WLEDDevice.request { online := true } .timeout).1.last_error = some "Timeout")
  ∧ ((WLEDDevice.request { online := false } (.httpResp 200 (some (.obj [])))).1.online = true ∧
     (WLEDDevice.request { online := false } (.httpResp 200 (some (.obj [])))).1.last_error = none) := by
  refine ⟨(request_attempt_classification { online := true } .timeout).2.2.2.1 rfl, ?_⟩
  have h := (request_attempt_classification { online := false }
    (.httpResp 200 (some (.obj [])))).1 (.obj []) rfl
  exact ⟨h.1, h.2.1⟩

/-- Decoded state whose main-segment index is negative while one segment is
cached, used as concrete counterexample input. -/
def negMainsegState : WLEDState :=
  { main_segment := -1,
    segments := [{ id := 0, start := 0, stop := 0, length := 0, effect := 5, palette := 7,
                   colors := [[1, 2, 3]] }] }

/-- C4 counterexample: with one segment and main-segment index -1, the
guard `len(segments) > mainseg` passes and Python indexing counts from the
end, so the accessors return the last segment's color, effect and palette —
not the neutral defaults the claim requires for a negative index. -/
theorem negative_main_segment_cex :
    negMainsegState.primary_color = .ok [1, 2, 3]
  ∧ negMainsegState.primary_color ≠ .ok [255, 255, 255]
  ∧ negMainsegState.effect = .ok 5
  ∧ negMainsegState.palette = .ok 7 := by
  refine ⟨rfl, ?_, rfl, rfl⟩
  intro hcon
  have h12 : (Except.ok [1, 2, 3] : Except String (List Int)) = .ok [255, 255, 255] := hcon
  injection h12 with h12
  exact absurd h12 (by decide)

/-- C4 amended: the accessors return the neutral defaults (white, effect 0,
palette 0) when the segment list is empty or the main-segment index is at
least the segment count; for an index within range they return the main
segment's values (its first color when its color list is non-empty, else
white); a negative index with a non-empty segment list selects from the end
of the list as Python indexing does, and raises `IndexError` when even the
wrapped index is negative. -/
theorem main_segment_accessors (s : WLEDState) :
    (s.segments = [] →
      s.primary_color = .ok [255, 255, 255] ∧ s.effect = .ok 0 ∧ s.palette = .ok 0)
  ∧ ((s.segments.length : Int) ≤ s.main_segment →
      s.primary_color = .ok [255, 255, 255] ∧ s.effect = .ok 0 ∧ s.palette = .ok 0)
  ∧ (∀ seg, 0 ≤ s.main_segment → s.segments.get? s.main_segment.toNat = some seg →
      s.primary_color = .ok (seg.colors.headD [255, 255, 255]) ∧
      s.effect = .ok seg.effect ∧ s.palette = .ok seg.palette)
  ∧ (∀ seg, s.main_segment < 0 →
      s.segments.get? (s.main_segment + (s.segments.length : Int)).toNat = some seg →
      0 ≤ s.main_segment + (s.segments.length : Int) →
      s.primary_color = .ok (seg.colors.headD [255, 255, 255]) ∧
      s.effect = .ok seg.effect ∧ s.palette = .ok seg.palette)
  ∧ (s.segments ≠ [] → s.main_segment + (s.segments.length : Int) < 0 →
      s.primary_color = .error "IndexError" ∧
      s.effect = .error "IndexError" ∧ s.palette = .error "IndexError") := by
  refine ⟨?_, ?_, ?_, ?_, ?_⟩
  · intro h
    have hl : s.segments.length = 0 := by rw [h]; rfl
    have hg : ¬(s.segments.length ≠ 0 ∧ s.main_segment < (s.segments.length : Int)) :=
      fun hc => hc.1 hl
    simp only [WLEDState.primary_color, WLEDState.effect, WLEDState.palette, if_neg hg]
    exact ⟨by trivial, by trivial, by trivial⟩
  · intro h
    have hg : ¬(s.segments.length ≠ 0 ∧ s.main_segment < (s.segments.length : Int)) :=
      fun hc => absurd hc.2 (not_lt.mpr h)
    simp only [WLEDState.primary_color, WLEDState.effect, WLEDState.palette, if_neg hg]
    exact ⟨by trivial, by trivial, by trivial⟩
  · intro seg h0 hget
    have hlt : s.main_segment.toNat < s.segments.length := by
      by_contra hnlt
      rw [List.get?_eq_none.mpr (le_of_not_lt hnlt)] at hget
      cases hget
    have hg : s.segments.length ≠ 0 ∧ s.main_segment < (s.segments.length : Int) :=
      ⟨by omega, by omega⟩
    have hstep : pyIndex s.segments s.main_segment = .ok seg := by
      simp only [pyIndex, if_neg (not_lt.mpr h0), hget]
    simp only [WLEDState.primary_color, WLEDState.effect, WLEDState.palette,
      if_pos hg, hstep]
    refine ⟨?_, by trivial, by trivial⟩
    cases hc : seg.colors with
    | nil => rfl
    | cons c0 cs => rfl
  · intro seg hneg hget hnn
    have hlt : (s.main_segment + (s.segments.length : Int)).toNat < s.segments.length := by
      by_contra hnlt
      rw [List.get?_eq_none.mpr (le_of_not_lt hnlt)] at hget
      cases hget
    have hg : s.segments.length ≠ 0 ∧ s.main_segment < (s.segments.length : Int) :=
      ⟨by omega, by omega⟩
    have hstep : pyIndex s.segments s.main_segment = .ok seg := by
      simp only [pyIndex, if_pos hneg, if_neg (not_lt.mpr hnn), hget]
    simp only [WLEDState.primary_color, WLEDState.effect, WLEDState.palette,
      if_pos hg, hstep]
    refine ⟨?_, by trivial, by trivial⟩
    cases hc : seg.colors with
    | nil => rfl
    | cons c0 cs => rfl
  · intro hne hltz
    have hpos : 0 < s.segments.length := List.length_pos.mpr hne
    have hneg : s.main_segment < 0 := by omega
    have hg : s.segments.length ≠ 0 ∧ s.main_segment < (s.segments.length : Int) :=
      ⟨by omega, by omega⟩
    have hstep : pyIndex s.segments s.main_segment = .error "IndexError" := by
      simp only [pyIndex, if_pos hneg, if_pos hltz]
    simp only [WLEDState.primary_color, WLEDState.effect, WLEDState.palette,
      if_pos hg, hstep]
    exact ⟨by trivial, by trivial, by trivial⟩

/-- Decoded state with one segment and main-segment index 0, used as
concrete witness input. -/
def mainSegState : WLEDState :=
  { main_segment := 0,
    segments := [{ id := 0, start := 0, stop := 10, length := 10, effect := 9, palette := 4,
                   colors := [[10, 20, 30]] }] }

/-- C4 witness: with one segment at index 0, the accessors return that
segment's first color, effect id and palette id. -/
theorem main_segment_accessors_witness :
    mainSegState.primary_color = .ok [10, 20, 30]
  ∧ mainSegState.effect = .ok 9
  ∧ mainSegState.palette = .ok 4 := by
  have h := (main_segment_accessors mainSegState).2.2.1
    { id := 0, start := 0, stop := 10, length := 10, effect := 9, palette := 4,
      colors := [[10, 20, 30]] } (by decide) rfl
  exact ⟨h.1, h.2.1, h.2.2⟩

/-- Projection of the palette-usage flag computed by `parse_fxdata`: it is
decided by the third semicolon-separated section alone (the flags section
never writes it). -/
theorem parse_fxdata_uses_palette (name data : String) :
    (parse_fxdata name data).uses_palette =
      (if data = "" then false
       else if 3 ≤ (pySplit data ';').length then
         decide (pyStrip ((pySplit data ';').getD 2 "") ≠ "" ∧
                 pyStrip ((pySplit data ';').getD 2 "") ≠ "!")
       else false) := by
  simp only [parse_fxdata]
  split_ifs <;> rfl

/-- C3 counterexample: the string `"12;!;,sx,ix;1v"` split on every `';'`
has `",sx,ix"` as its third section, which is neither empty nor the `!`
marker, so the code decodes uses_palette as `true` — the claim expects
`false` (it takes the second section `"!"` for the palette section). -/
theorem fxdata_example_uses_palette_cex :
    parse_fxdata "Android" "12;!;,sx,ix;1v" =
      { name := "Android", is_2d := false, uses_palette := true, volume := true,
        frequency := false }
  ∧ (parse_fxdata "Android" "12;!;,sx,ix;1v").uses_palette ≠ false :=
  ⟨rfl, by decide⟩

/-- C3 amended: `"12;!;,sx,ix;1v"` decodes to uses_palette=true (its third
`';'`-section is `",sx,ix"`), is_2d=false, volume=true, frequency=false;
in general uses_palette is true exactly when the string is non-empty, splits
into at least three `';'`-sections, and the third section (stripped) is
neither empty nor the single disabled marker `'!'`. -/
theorem fxdata_palette_flag_decode :
    (∀ name, parse_fxdata name "12;!;,sx,ix;1v" =
      { name := name, is_2d := false, uses_palette := true, volume := true,
        frequency := false })
  ∧ (∀ name data, (parse_fxdata name data).uses_palette = true ↔
      (data ≠ "" ∧ 3 ≤ (pySplit data ';').length ∧
       pyStrip ((pySplit data ';').getD 2 "") ≠ "" ∧
       pyStrip ((pySplit data ';').getD 2 "") ≠ "!")) := by
  constructor
  · intro name
    rfl
  · intro name data
    rw [parse_fxdata_uses_palette name data]
    by_cases hd : data = ""
    · simp [hd]
    · rw [if_neg hd]
      by_cases h3 : 3 ≤ (pySplit data ';').length
      · rw [if_pos h3]
        simp [hd, h3, decide_eq_true_iff]
      · rw [if_neg h3]
        simp [hd, h3]

/-- C3 witness: the decode of the running example through the amended
theorem. -/
theorem fxdata_palette_flag_decode_witness :
    parse_fxdata "Blink" "12;!;,sx,ix;1v" =
      { name := "Blink", is_2d := false, uses_palette := true, volume := true,
        frequency := false } :=
  fxdata_palette_flag_decode.1 "Blink"

/-- Behaviour of the `max(0, min(255, x))` clamp. -/
theorem clamp255_spec (x : Int) :
    0 ≤ clamp255 x ∧ clamp255 x ≤ 255 ∧ (x < 0 → clamp255 x = 0) ∧
    (255 < x → clamp255 x = 255) ∧ (0 ≤ x → x ≤ 255 → clamp255 x = x) := by
  simp only [clamp255, max_def, min_def]
  split_ifs <;> refine ⟨by omega, by omega, by omega, by omega, by omega⟩

/-- C8: the brightness setter clamps its scalar into [0, 255] before
encoding it as the `bri` field of the payload, and the color setter clamps
each of the four channels independently before encoding them into the
nested `seg`/`col` payload. -/
theorem convenience_setters_clamp (bri r g b w : Int) :
    (∃ v, briOf (WLEDDevice.set_brightness_payload bri) = some v ∧
       0 ≤ v ∧ v ≤ 255 ∧ (bri < 0 → v = 0) ∧ (255 < bri → v = 255) ∧
       (0 ≤ bri → bri ≤ 255 → v = bri))
  ∧ (∃ cs, colorOf (WLEDDevice.set_color_payload r g b w) = some cs ∧
       cs = [clamp255 r, clamp255 g, clamp255 b, clamp255 w] ∧
       ∀ x ∈ cs, 0 ≤ x ∧ x ≤ 255) := by
  refine ⟨⟨clamp255 bri, rfl, (clamp255_spec bri).1, (clamp255_spec bri).2.1,
      (clamp255_spec bri).2.2.1, (clamp255_spec bri).2.2.2.1, (clamp255_spec bri).2.2.2.2⟩,
    ⟨[clamp255 r, clamp255 g, clamp255 b, clamp255 w], rfl, rfl, ?_⟩⟩
  intro x hx
  simp only [List.mem_cons, List.not_mem_nil, or_false] at hx
  rcases hx with rfl | rfl | rfl | rfl <;>
    exact ⟨(clamp255_spec _).1, (clamp255_spec _).2.1⟩

/-- C8 witness: brightness -5 encodes as 0 and brightness 999 as 255. -/
theorem convenience_setters_clamp_witness :
    briOf (WLEDDevice.set_brightness_payload (-5)) = some 0
  ∧ briOf (WLEDDevice.set_brightness_payload 999) = some 255 := by
  obtain ⟨v, hv, _, _, hneg, _, _⟩ := (convenience_setters_clamp (-5) 0 0 0 0).1
  obtain ⟨v2, hv2, _, _, _, hgt, _⟩ := (convenience_setters_clamp 999 0 0 0 0).1
  rw [hneg (by decide)] at hv
  rw [hgt (by decide)] at hv2
  exact ⟨hv, hv2⟩

/-- Key membership after a Python dict assignment: inserting key `k` adds
`k` to the key set and keeps every existing key. -/
theorem mem_keys_presetsInsert (m : List (Int × Json)) (k k' : Int) (v : Json) :
    k' ∈ (presetsInsert m k v).map Prod.fst ↔ k' = k ∨ k' ∈ m.map Prod.fst := by
  unfold presetsInsert
  by_cases hany : m.any (fun p => decide (p.1 = k)) = true
  · rw [if_pos hany]
    have hkeys : (m.map (fun p => if p.1 = k then (k, v) else p)).map Prod.fst =
        m.map Prod.fst := by
      rw [List.map_map]
      refine List.map_congr_left ?_
      intro p _
      by_cases hp : p.1 = k
      · simp [hp]
      · simp [hp]
    rw [hkeys]
    have hk : k ∈ m.map Prod.fst := by
      rw [List.any_eq_true] at hany
      obtain ⟨p, hp, hpk⟩ := hany
      rw [decide_eq_true_iff] at hpk
      exact hpk ▸ List.mem_map_of_mem Prod.fst hp
    constructor
    · exact fun h => Or.inr h
    · rintro (rfl | h)
      · exact hk
      · exact h
  · rw [if_neg hany]
    simp [List.mem_append, or_comm]

/-- Key membership in the `get_presets` accumulation loop: a key is present
exactly when it was already accumulated or some response entry has an
integer-parseable key equal to it and an object value containing a name. -/
theorem mem_keys_buildPresets (fs : List (String × Json)) (acc : List (Int × Json)) (k : Int) :
    k ∈ (buildPresets fs acc).map Prod.fst ↔
      k ∈ acc.map Prod.fst ∨
      ∃ p ∈ fs, pyInt p.1 = some k ∧ hasNameEntry p.2 = true := by
  induction fs generalizing acc with
  | nil => simp [buildPresets]
  | cons hd tl ih =>
    obtain ⟨key, value⟩ := hd
    cases value with
    | obj fsv =>
      cases hn : jlookup fsv "n" with
      | none =>
        simp only [buildPresets, hn, ih]
        simp [hasNameEntry, hn]
      | some n =>
        cases hk : pyInt key with
        | none =>
          simp only [buildPresets, hn, hk, ih]
          simp [hasNameEntry, hn, hk]
        | some idv =>
          simp only [buildPresets, hn, hk, ih, mem_keys_presetsInsert]
          simp only [List.mem_cons, hasNameEntry, hn, Option.isSome_some]
          constructor
          · rintro ((rfl | h) | h)
            · exact Or.inr ⟨(key, .obj fsv), Or.inl rfl, hk, by simp [hasNameEntry, hn]⟩
            · exact Or.inl h
            · obtain ⟨p, hp, hpk, hpn⟩ := h
              exact Or.inr ⟨p, Or.inr hp, hpk, hpn⟩
          · rintro (h | ⟨p, (rfl | hp), hpk, hpn⟩)
            · exact Or.inl (Or.inr h)
            · rw [hk] at hpk
              injection hpk with hpk
              exact Or.inl (Or.inl hpk.symm)
            · exact Or.inr ⟨p, hp, hpk, hpn⟩
    | null => simp only [buildPresets, ih]; simp [hasNameEntry]
    | bool b => simp only [buildPresets, ih]; simp [hasNameEntry]
    | num n => simp only [buildPresets, ih]; simp [hasNameEntry]
    | str s => simp only [buildPresets, ih]; simp [hasNameEntry]
    | arr xs => simp only [buildPresets, ih]; simp [hasNameEntry]

/-- C9: a 200 response with an object body caches and returns the preset
map built from it, whose keys are exactly the integer-parseable keys of
entries whose value is an object containing a name (all other entries are
skipped without failing the call); any non-200 status or network exception
yields the empty map with the cache untouched instead of an error. -/
theorem get_presets_characterization (c : ClientState) (fs : List (String × Json)) :
    (WLEDDevice.get_presets c (.httpResp 200 (some (.obj fs))) =
      ({ c with presets := buildPresets fs [] }, buildPresets fs []))
  ∧ (∀ k : Int, k ∈ (buildPresets fs []).map Prod.fst ↔
      ∃ p ∈ fs, pyInt p.1 = some k ∧ hasNameEntry p.2 = true)
  ∧ (∀ status body, status ≠ 200 → WLEDDevice.get_presets c (.httpResp status body) = (c, []))
  ∧ (WLEDDevice.get_presets c .timeout = (c, []) ∧
     WLEDDevice.get_presets c .connError = (c, []) ∧
     ∀ m, WLEDDevice.get_presets c (.reqError m) = (c, []) ∧
          WLEDDevice.get_presets c (.otherError m) = (c, [])) := by
  refine ⟨rfl, ?_, ?_, rfl, rfl, fun m => ⟨rfl, rfl⟩⟩
  · intro k
    rw [mem_keys_buildPresets]
    simp
  · intro status body hs
    unfold WLEDDevice.get_presets
    split
    · rename_i heq
      injection heq with h1 h2
      exact absurd h1 hs
    · rfl

/-- C9 witness: a response with entries `"3"` (object with name), `"x"`
(non-integer key) yields key 3, and a 404 yields the empty map. -/
theorem get_presets_characterization_witness :
    (3 : Int) ∈ (buildPresets [("3", .obj [("n", .str "A")]), ("x", .obj [("n", .str "B")])]
      []).map Prod.fst
  ∧ WLEDDevice.get_presets {} (.httpResp 404 none) = ({}, []) := by
  constructor
  · exact ((get_presets_characterization {}
      [("3", .obj [("n", .str "A")]), ("x", .obj [("n", .str "B")])]).2.1 3).mpr
      ⟨("3", .obj [("n", .str "A")]), by simp, rfl, rfl⟩
  · exact (get_presets_characterization {} []).2.2.1 404 none (by decide)

/-- The address a probe confirms is the address that was probed. -/
theorem probe_ip_addr (ip : String) (o : ReqOutcome) (d : DiscDevice)
    (h : WLEDDiscovery.probe_ip ip o = some d) : d.ip = ip := by
  unfold WLEDDiscovery.probe_ip at h
  split at h
  · split_ifs at h
    · injection h with h
      subst h
      rfl
  · cases h

/-- Every address recorded as failed by a probing pass either was already
recorded or belongs to the candidate list of the pass. -/
theorem run_pass_failed_sub (env : String → ReqOutcome) (retry : Bool) :
    ∀ (ips : List String) (devices : List DiscDevice) (failed : List String) (ip : String),
      ip ∈ (WLEDDiscovery.run_pass env retry ips devices failed).2 →
      ip ∈ failed ∨ ip ∈ ips := by
  intro ips
  induction ips with
  | nil =>
    intro devices failed ip h
    exact Or.inl h
  | cons hd tl ih =>
    intro devices failed ip h
    rw [WLEDDiscovery.run_pass] at h
    cases hp : WLEDDiscovery.probe_ip hd (env hd) with
    | some d =>
      rw [hp] at h
      rcases ih _ _ _ h with hf | ht
      · exact Or.inl hf
      · exact Or.inr (List.mem_cons_of_mem hd ht)
    | none =>
      rw [hp] at h
      rcases ih _ _ _ h with hf | ht
      · by_cases hr : retry
        · rw [if_pos hr] at hf
          exact Or.inl hf
        · rw [if_neg hr] at hf
          rcases List.mem_append.mp hf with hf' | hf'
          · exact Or.inl hf'
          · simp only [List.mem_singleton] at hf'
            exact Or.inr (hf' ▸ List.mem_cons_self hd tl)
      · exact Or.inr (List.mem_cons_of_mem hd ht)

/-- A probing pass preserves the no-duplicate-addresses invariant of the
collected device list. -/
theorem run_pass_nodup (env : String → ReqOutcome) (retry : Bool) :
    ∀ (ips : List String) (devices : List DiscDevice) (failed : List String),
      (devices.map DiscDevice.ip).Nodup →
      ((WLEDDiscovery.run_pass env retry ips devices failed).1.map DiscDevice.ip).Nodup := by
  intro ips
  induction ips with
  | nil =>
    intro devices failed h
    exact h
  | cons hd tl ih =>
    intro devices failed h
    rw [WLEDDiscovery.run_pass]
    cases hp : WLEDDiscovery.probe_ip hd (env hd) with
    | some d =>
      simp only [hp]
      by_cases hany : devices.any (fun x => decide (x.ip = hd)) = true
      · rw [if_pos hany]
        exact ih _ _ h
      · rw [if_neg hany]
        refine ih _ _ ?_
        rw [List.map_append]
        rw [List.nodup_append]
        refine ⟨h, by simp, ?_⟩
        intro a ha hb
        simp only [List.map_cons, List.map_nil, List.mem_singleton] at hb
        rw [probe_ip_addr hd (env hd) d hp] at hb
        subst hb
        rw [List.any_eq_true] at hany
        obtain ⟨x, hx, hxip⟩ := List.mem_map.mp ha
        exact hany ⟨x, hx, by simp [hxip]⟩
    | none =>
      simp only [hp]
      exact ih _ _ h

/-- C10: the candidate list of the HTTP subnet prober is exactly the 254
host addresses `<subnet>.1` ... `<subnet>.254` minus the exclusion set;
every address probed in either pass is outside the exclusion set; and the
returned device list never carries the same address twice, even across the
two passes. -/
theorem subnet_probe_characterization (subnet : String) (exclude_ips : List String)
    (env1 env2 : String → ReqOutcome) (do_retry : Bool) :
    (∀ ip, ip ∈ WLEDDiscovery.ips_to_probe subnet exclude_ips ↔
      ((∃ i : Nat, 1 ≤ i ∧ i ≤ 254 ∧ ip = subnet ++ "." ++ toString i) ∧
       ip ∉ exclude_ips))
  ∧ (∀ ip, ip ∈ (WLEDDiscovery.discover_http subnet exclude_ips env1 env2 do_retry).2 →
      ip ∉ exclude_ips)
  ∧ ((WLEDDiscovery.discover_http subnet exclude_ips env1 env2 do_retry).1.map
      DiscDevice.ip).Nodup := by
  have hmem : ∀ ip, ip ∈ WLEDDiscovery.ips_to_probe subnet exclude_ips ↔
      ((∃ i : Nat, 1 ≤ i ∧ i ≤ 254 ∧ ip = subnet ++ "." ++ toString i) ∧
       ip ∉ exclude_ips) := by
    intro ip
    unfold WLEDDiscovery.ips_to_probe
    rw [List.mem_filter, List.mem_map]
    simp only [List.mem_range'_1, decide_eq_true_iff]
    constructor
    · rintro ⟨⟨i, ⟨h1, h2⟩, rfl⟩, hex⟩
      exact ⟨⟨i, h1, by omega, rfl⟩, hex⟩
    · rintro ⟨⟨i, h1, h2, rfl⟩, hex⟩
      exact ⟨⟨i, ⟨h1, by omega⟩, rfl⟩, hex⟩
  refine ⟨hmem, ?_, ?_⟩
  · intro ip hp
    simp only [WLEDDiscovery.discover_http] at hp
    split at hp
    · rcases List.mem_append.mp hp with hi | hf
      · exact ((hmem ip).mp hi).2
      · rcases run_pass_failed_sub env1 false _ _ _ _ hf with hemp | hi
        · cases hemp
        · exact ((hmem ip).mp hi).2
    · exact ((hmem ip).mp hp).2
  · simp only [WLEDDiscovery.discover_http]
    split
    · exact run_pass_nodup env2 true _ _ _
        (run_pass_nodup env1 false _ _ _ (by simp))
    · exact run_pass_nodup env1 false _ _ _ (by simp)

/-- C10 witness: on subnet `10.0.0` with `10.0.0.5` excluded, host 7 is a
candidate and the excluded host 5 is not. -/
theorem subnet_probe_characterization_witness :
    "10.0.0.7" ∈ WLEDDiscovery.ips_to_probe "10.0.0" ["10.0.0.5"]
  ∧ "10.0.0.5" ∉ WLEDDiscovery.ips_to_probe "10.0.0" ["10.0.0.5"] := by
  have h := (subnet_probe_characterization "10.0.0" ["10.0.0.5"]
    (fun _ => .timeout) (fun _ => .timeout) false).1
  constructor
  · exact (h "10.0.0.7").mpr ⟨⟨7, by decide, by decide, rfl⟩, by decide⟩
  · intro hmem
    exact ((h "10.0.0.5").mp hmem).2 (by decide)
